import Mathlib

/-!
Verification development for the autonomous-decision subsystem of the
agentic-ai-sdlc repository (`autonomous_features.py`).

Modelling conventions:
* Python `float` arithmetic is embedded as exact rational arithmetic (`ℚ`);
  every constant in the source (0.7, 0.85, ...) is an exact decimal, so the
  embedded scores agree with the source except at float-rounding ties.
* Python strings are processed as `List Char` (obtained via `String.data`)
  so that every operation is structurally recursive and kernel-computable.
* `re.findall(r'\b\w\x7b4,\x7d\b', s)` is modelled by splitting `s` at every
  non-word character (word characters are alphanumerics and underscore) and
  keeping the pieces of length at least 4, which is exact for such patterns.
* Python `set` values are modelled by lists; only cardinalities and
  membership of these sets are consumed, so `List.dedup` is a faithful model.
* `datetime.now()` is modelled by an explicit `now : String` argument;
  mutable attributes (`decision_history`, `error_history`,
  `performance_history`) are modelled by explicit state passing.
-/

/-! ### Character / string helpers (models of Python str operations) -/

/-- Lower-cased character list of a string: models `s.lower()`. -/
def lcs (s : String) : List Char := s.data.map Char.toLower

/-- `hasSubList pat text` models Python `pat in text` (contiguous substring). -/
def hasSubList (pat : List Char) : List Char → Bool
  | [] => pat.isEmpty
  | c :: cs => pat.isPrefixOf (c :: cs) || hasSubList pat cs

/-- `containsSub text pat = true` iff `pat` occurs contiguously in `text`. -/
def containsSub (text pat : List Char) : Bool := hasSubList pat text

/-- Scanner for non-overlapping occurrence counting: `skip` characters of
the text still belong to the previous match and are passed over. -/
def countSubAux (pat : List Char) : List Char → Nat → Nat
  | [], _ => 0
  | _ :: cs, skip + 1 => countSubAux pat cs skip
  | c :: cs, 0 =>
    if pat.isPrefixOf (c :: cs) && !pat.isEmpty then
      1 + countSubAux pat cs (pat.length - 1)
    else
      countSubAux pat cs 0

/-- Non-overlapping occurrence count: models Python `text.count(pat)` for
nonempty `pat`. -/
def countSubList (pat text : List Char) : Nat := countSubAux pat text 0

/-- Split a character list at every character satisfying `p`, keeping empty
pieces: models Python-style splitting at separator characters. -/
def splitListAux (p : Char → Bool) (acc : List Char) : List Char → List (List Char)
  | [] => [acc.reverse]
  | c :: cs => if p c then acc.reverse :: splitListAux p [] cs else splitListAux p (c :: acc) cs

/-- Split at every character satisfying `p` (empty pieces kept). -/
def splitList (p : Char → Bool) (cs : List Char) : List (List Char) :=
  splitListAux p [] cs

/-- Models Python `s.split()` (split on whitespace, dropping empty pieces). -/
def pySplit (cs : List Char) : List (List Char) :=
  (splitList (fun c => c.isWhitespace) cs).filter (fun w => !w.isEmpty)

/-- A regex `\w` word character: alphanumeric or underscore. -/
def isWordChar (c : Char) : Bool := c.isAlphanum || c = '_'

/-- Maximal runs of word characters: the matches of `\b\w+\b`. -/
def wordTokens (cs : List Char) : List (List Char) :=
  (splitList (fun c => !isWordChar c) cs).filter (fun w => !w.isEmpty)

/-- Models `re.findall(r'\b\w\x7b4,\x7d\b', s)`: word tokens of length ≥ 4. -/
def keywordTokens (cs : List Char) : List (List Char) :=
  (wordTokens cs).filter (fun w => 4 ≤ w.length)

/-- Models `' '.join(parts)`. -/
def joinSpace (parts : List (List Char)) : List Char :=
  match parts with
  | [] => []
  | p :: ps => p ++ (ps.flatMap (fun q => ' ' :: q))

/-- Models `". ".join(parts)` for feedback strings. -/
def joinDot (parts : List String) : String :=
  match parts with
  | [] => ""
  | p :: ps => ps.foldl (fun acc q => acc ++ ". " ++ q) p

/-- Boolean to rational, modelling Python `int(b)` / summing booleans. -/
def b2q (b : Bool) : ℚ := if b then 1 else 0

/-! ### Data model: QualityMetrics, AutonomyLevel, decision records -/

/-- `QualityMetrics` dataclass: the four sub-scores plus the overall score.
The source comments each field with `# 0-1`. -/
structure QualityMetrics where
  completeness_score : ℚ
  consistency_score : ℚ
  security_score : ℚ
  best_practices_score : ℚ
  overall_score : ℚ
deriving DecidableEq, Repr

/-- `QualityMetrics.meets_threshold`: `overall_score >= threshold`. -/
def QualityMetrics.meets_threshold (m : QualityMetrics) (threshold : ℚ) : Bool :=
  threshold ≤ m.overall_score

/-- `AutonomyLevel` enum. -/
inductive AutonomyLevel where
  | manual
  | semi_auto
  | full_auto
  | expert_auto
deriving DecidableEq, Repr

/-- The `.value` string of each enum member. -/
def AutonomyLevel.value : AutonomyLevel → String
  | .manual => "manual"
  | .semi_auto => "semi_auto"
  | .full_auto => "full_auto"
  | .expert_auto => "expert_auto"

/-- `AutonomousDecisionEngine.quality_thresholds` mapping. -/
def quality_thresholds : AutonomyLevel → ℚ
  | .manual => 1
  | .semi_auto => 0.85
  | .full_auto => 0.75
  | .expert_auto => 0.7

/-- One entry of `decision_history` as appended by `_log_decision`. -/
structure DecisionRecord where
  timestamp : String
  stage : String
  decision : String
  metrics : QualityMetrics
  feedback : String
  autonomy_level : String
deriving DecidableEq, Repr

/-- The `(decision, metrics, feedback)` triple returned by each
`analyze_*` method. -/
structure AnalyzeResult where
  decision : String
  metrics : QualityMetrics
  feedback : String
deriving DecidableEq, Repr

/-- Shared tail of every `analyze_*` success path: threshold comparison,
decision string, and `_log_decision` appending to `decision_history`. -/
def decideAndLog (stage : String) (level : AutonomyLevel) (history : List DecisionRecord)
    (now : String) (metrics : QualityMetrics) (feedback : String) :
    AnalyzeResult × List DecisionRecord :=
  let decision := if metrics.meets_threshold (quality_thresholds level) then "Approve" else "Denied"
  (⟨decision, metrics, feedback⟩,
   history ++ [⟨now, stage, decision, metrics, feedback, level.value⟩])

/-! ### User-story scorer -/

/-- `_check_story_completeness`. -/
def check_story_completeness (stories : List String) : ℚ :=
  if stories.isEmpty then 0
  else
    let credit := fun (story : String) =>
      let s := lcs story
      let has_as_a := containsSub s "as a".data
      let has_i_want := containsSub s "i want".data
      let has_so_that := containsSub s "so that".data
      if has_as_a && has_i_want && has_so_that then (1 : ℚ)
      else if has_as_a && has_i_want then 0.7
      else if has_as_a || has_i_want || has_so_that then 0.3
      else 0
    (stories.map credit).sum / stories.length

/-- The stopword set removed from requirement keywords. -/
def reqStopwords : List (List Char) :=
  ["that", "with", "have", "will", "this", "from", "they"].map String.data

/-- `_check_requirements_alignment`. -/
def check_requirements_alignment (stories : List String) (requirements : String) : ℚ :=
  if requirements.isEmpty || stories.isEmpty then 0
  else
    let req_keywords :=
      ((keywordTokens (lcs requirements)).dedup).filter (fun w => !reqStopwords.contains w)
    let story_keywords := stories.flatMap (fun story => keywordTokens (lcs story))
    if req_keywords.isEmpty then 0.5
    else
      let common := req_keywords.filter (fun w => story_keywords.contains w)
      min 1 ((common.length : ℚ) / req_keywords.length)

/-- The testability indicator words of `_check_story_best_practices`. -/
def testableIndicators : List (List Char) :=
  ["validate", "verify", "ensure", "check", "confirm"].map String.data

/-- `_check_story_best_practices`. -/
def check_story_best_practices (stories : List String) : ℚ :=
  if stories.isEmpty then 0
  else
    let lengthPenalty : ℚ :=
      (stories.map (fun story =>
        let word_count := (pySplit story.data).length
        if word_count < 8 then (0.1 : ℚ)
        else if word_count > 60 then 0.1
        else 0)).sum
    let score : ℚ := 1 - lengthPenalty
    let score := if stories.dedup.length < stories.length then score - 0.2 else score
    let testable_count :=
      (stories.filter (fun story =>
        testableIndicators.any (fun ind => containsSub (lcs story) ind))).length
    let score :=
      if (testable_count : ℚ) < (stories.length : ℚ) * 0.3 then score - 0.15 else score
    max 0 score

/-- `_generate_story_feedback`. -/
def generate_story_feedback (metrics : QualityMetrics) (_stories : List String) : String :=
  let feedback : List String := []
  let feedback := feedback ++
    (if metrics.completeness_score < 0.7 then
      ["Some user stories are missing the standard \x27As a... I want... So that...\x27 format"]
     else [])
  let feedback := feedback ++
    (if metrics.consistency_score < 0.7 then
      ["User stories could better align with the stated requirements"] else [])
  let feedback := feedback ++
    (if metrics.best_practices_score < 0.7 then
      ["Consider making stories more concise, unique, and testable"] else [])
  let feedback := feedback ++
    (if metrics.overall_score ≥ 0.9 then
      ["Excellent user stories! Well-structured and comprehensive"]
     else if metrics.overall_score ≥ 0.75 then
      ["Good user stories with minor improvements needed"]
     else [])
  if feedback.isEmpty then "User stories meet quality standards" else joinDot feedback

/-- `analyze_user_stories`, with the try/except control flow made explicit:
`.ok` carries the actual arguments, `.error e` represents a call whose
assessment raised exception `e`; the `.error` arm is the literal `except`
branch of the source (note it does not call `_log_decision`). -/
def analyzeUserStoriesWith (level : AutonomyLevel) (history : List DecisionRecord)
    (now : String) (input : Except String (List String × String)) :
    AnalyzeResult × List DecisionRecord :=
  match input with
  | .error e =>
      (⟨"Denied", ⟨0.5, 0.5, 1.0, 0.5, 0.5⟩, "Analysis failed: " ++ e⟩, history)
  | .ok (stories, requirements) =>
      let completeness := check_story_completeness stories
      let consistency := check_requirements_alignment stories requirements
      let best_practices := check_story_best_practices stories
      let overall := (completeness + consistency + best_practices) / 3
      let metrics : QualityMetrics :=
        { completeness_score := completeness
          consistency_score := consistency
          security_score := 1.0
          best_practices_score := best_practices
          overall_score := overall }
      let feedback := generate_story_feedback metrics stories
      decideAndLog "user_stories" level history now metrics feedback

/-- `analyze_user_stories` on ordinary (non-raising) input. -/
def analyze_user_stories (level : AutonomyLevel) (history : List DecisionRecord)
    (now : String) (stories : List String) (requirements : String) :
    AnalyzeResult × List DecisionRecord :=
  analyzeUserStoriesWith level history now (.ok (stories, requirements))

/-! ### Design-document scorer -/

/-- A design document: the dict keys `functional`, `technical`, `assumptions`
read by the analyzer (a missing key is read as the empty list by `.get`). -/
structure DesignDoc where
  functional : List String
  technical : List String
  assumptions : List String
deriving DecidableEq, Repr

/-- `_check_design_completeness`. -/
def check_design_completeness (functional technical : List String) : ℚ :=
  let score : ℚ := 0
  let score := score +
    (if functional.length ≥ 5 then (0.5 : ℚ)
     else if functional.length ≥ 3 then 0.35
     else (functional.length : ℚ) * 0.1)
  let score := score +
    (if technical.length ≥ 5 then (0.5 : ℚ)
     else if technical.length ≥ 3 then 0.35
     else (technical.length : ℚ) * 0.1)
  min 1 score

/-- Stopwords removed from a story's key parts in
`_check_design_story_alignment`. -/
def alignStopwords : List (List Char) :=
  ["that", "with", "have", "will", "want"].map String.data

/-- `_check_design_story_alignment`. -/
def check_design_story_alignment (design_doc : DesignDoc) (stories : List String) : ℚ :=
  if stories.isEmpty then 1.0
  else
    let all_design_text :=
      (joinSpace ((design_doc.functional ++ design_doc.technical ++
        design_doc.assumptions).map String.data)).map Char.toLower
    let covered_stories :=
      (stories.filter (fun story =>
        let key_parts :=
          (keywordTokens (lcs story)).filter (fun w => !alignStopwords.contains w)
        let matchCount := (key_parts.filter (fun p => containsSub all_design_text p)).length
        matchCount ≥ 2 || (key_parts.length ≤ 2 && matchCount ≥ 1))).length
    (covered_stories : ℚ) / stories.length

/-- The technical-aspect keyword taxonomy of `_check_design_best_practices`. -/
def technicalAspects : List (List (List Char)) :=
  [["api", "endpoint", "rest", "graphql"],
   ["database", "data model", "schema", "storage"],
   ["security", "authentication", "authorization", "encryption"],
   ["scalability", "performance", "load", "cache"],
   ["error handling", "exception", "validation", "logging"],
   ["test", "testing", "quality", "validation"],
   ["deployment", "docker", "cloud", "infrastructure"]].map (List.map String.data)

/-- `_check_design_best_practices`. -/
def check_design_best_practices (technical : List String) : ℚ :=
  if technical.isEmpty then 0.3
  else
    let tech_text := (joinSpace (technical.map String.data)).map Char.toLower
    let score : ℚ :=
      (technicalAspects.map (fun keywords =>
        if keywords.any (fun k => containsSub tech_text k) then (0.14 : ℚ) else 0)).sum
    min 1 score

/-- The security keyword list of `_check_design_security`. -/
def designSecurityKeywords : List (List Char) :=
  ["authentication", "authorization", "encryption", "validation",
   "sanitization", "ssl", "https", "token", "security", "access control"].map String.data

/-- `_check_design_security`. -/
def check_design_security (technical : List String) : ℚ :=
  let score : ℚ := 0.4
  if technical.isEmpty then score
  else
    let tech_text := (joinSpace (technical.map String.data)).map Char.toLower
    let score := score +
      (designSecurityKeywords.map (fun k =>
        if containsSub tech_text k then (0.06 : ℚ) else 0)).sum
    min 1 score

/-- `_generate_design_feedback`. -/
def generate_design_feedback (metrics : QualityMetrics) (_design_doc : DesignDoc) : String :=
  let feedback : List String := []
  let feedback := feedback ++
    (if metrics.completeness_score < 0.7 then
      ["Design document needs more detail in functional or technical specifications"] else [])
  let feedback := feedback ++
    (if metrics.consistency_score < 0.7 then
      ["Ensure all user stories are addressed in the design"] else [])
  let feedback := feedback ++
    (if metrics.security_score < 0.7 then
      ["Add more security considerations (authentication, encryption, access control)"] else [])
  let feedback := feedback ++
    (if metrics.best_practices_score < 0.7 then
      ["Include more technical best practices (APIs, database design, error handling)"] else [])
  let feedback := feedback ++
    (if metrics.overall_score ≥ 0.9 then
      ["Comprehensive design document with excellent technical depth"]
     else if metrics.overall_score ≥ 0.75 then
      ["Good design document with solid technical foundation"]
     else [])
  if feedback.isEmpty then "Design document meets technical standards" else joinDot feedback

/-- `analyze_design_document`, with the try/except control flow explicit
(as in `analyzeUserStoriesWith`). -/
def analyzeDesignDocumentWith (level : AutonomyLevel) (history : List DecisionRecord)
    (now : String) (input : Except String (DesignDoc × List String)) :
    AnalyzeResult × List DecisionRecord :=
  match input with
  | .error e =>
      (⟨"Denied", ⟨0.5, 0.5, 0.5, 0.5, 0.5⟩, "Analysis failed: " ++ e⟩, history)
  | .ok (design_doc, stories) =>
      let functional := design_doc.functional
      let technical := design_doc.technical
      let completeness := check_design_completeness functional technical
      let consistency := check_design_story_alignment design_doc stories
      let best_practices := check_design_best_practices technical
      let security := check_design_security technical
      let overall := (completeness + consistency + best_practices + security) / 4
      let metrics : QualityMetrics :=
        { completeness_score := completeness
          consistency_score := consistency
          security_score := security
          best_practices_score := best_practices
          overall_score := overall }
      let feedback := generate_design_feedback metrics design_doc
      decideAndLog "design_document" level history now metrics feedback

/-- `analyze_design_document` on ordinary (non-raising) input. -/
def analyze_design_document (level : AutonomyLevel) (history : List DecisionRecord)
    (now : String) (design_doc : DesignDoc) (stories : List String) :
    AnalyzeResult × List DecisionRecord :=
  analyzeDesignDocumentWith level history now (.ok (design_doc, stories))

/-! ### A small regular-expression engine

Model of Python `re` for the finite set of patterns appearing in the
source: character classes, concatenation, alternation and Kleene star,
matched by Brzozowski derivatives. `.` does not match a newline, as in
Python without `re.DOTALL`. Greedy/lazy distinctions are irrelevant for
`re.search` (existence); for `re.findall` counts the source patterns are
ones where Python returns the maximal match at the leftmost position. -/

/-- Regular-expression syntax. -/
inductive RE where
  | eps
  | chr (p : Char → Bool)
  | seq (a b : RE)
  | alt (a b : RE)
  | star (a : RE)

/-- Does the language of `r` contain the empty word? -/
def RE.nullable : RE → Bool
  | .eps => true
  | .chr _ => false
  | .seq a b => a.nullable && b.nullable
  | .alt a b => a.nullable || b.nullable
  | .star _ => true

/-- Brzozowski derivative of `r` with respect to the character `c`. -/
def RE.deriv (c : Char) : RE → RE
  | .eps => .chr (fun _ => false)
  | .chr p => if p c then .eps else .chr (fun _ => false)
  | .seq a b =>
      if a.nullable then .alt (.seq (a.deriv c) b) (b.deriv c) else .seq (a.deriv c) b
  | .alt a b => .alt (a.deriv c) (b.deriv c)
  | .star a => .seq (a.deriv c) (.star a)

/-- Does some prefix of `cs` match `r`? -/
def RE.prefMatch : RE → List Char → Bool
  | r, [] => r.nullable
  | r, c :: cs => r.nullable || (r.deriv c).prefMatch cs

/-- Models `re.search(r, text) is not None`. -/
def reSearch (r : RE) : List Char → Bool
  | [] => r.nullable
  | c :: cs => r.prefMatch (c :: cs) || reSearch r cs

/-- Length of the longest prefix of `cs` matching `r` (none if no prefix
matches). -/
def RE.maxMatchLen : RE → List Char → Option Nat
  | r, [] => if r.nullable then some 0 else none
  | r, c :: cs =>
    match (r.deriv c).maxMatchLen cs with
    | some n => some (n + 1)
    | none => if r.nullable then some 0 else none

/-- Scanner for `re.findall` counting: `skip` characters of the text
still belong to the previous match and are passed over. -/
def findallCountAux (r : RE) : List Char → Nat → Nat
  | [], _ => 0
  | _ :: cs, skip + 1 => findallCountAux r cs skip
  | c :: cs, 0 =>
    match r.maxMatchLen (c :: cs) with
    | some (n + 1) => 1 + findallCountAux r cs n
    | _ => findallCountAux r cs 0

/-- Models `len(re.findall(r, text))` for the source patterns (leftmost
maximal non-overlapping matches; none of the source patterns matches the
empty word). -/
def findallCount (r : RE) (text : List Char) : Nat := findallCountAux r text 0

/-- Case-sensitive literal. -/
def reLit (s : String) : RE :=
  s.data.foldr (fun c r => RE.seq (.chr (fun d => d = c)) r) .eps

/-- Case-insensitive literal (models the `re.IGNORECASE` flag). -/
def reLitCI (s : String) : RE :=
  s.data.foldr (fun c r => RE.seq (.chr (fun d => d.toLower = c.toLower)) r) .eps

/-- Concatenation of a pattern list. -/
def reSeqs (l : List RE) : RE := l.foldr RE.seq .eps

/-- `\s*`. -/
def reWS0 : RE := .star (.chr Char.isWhitespace)

/-- `\s+`. -/
def reWS1 : RE := .seq (.chr Char.isWhitespace) reWS0

/-- `\w+`. -/
def reWord1 : RE := .seq (.chr isWordChar) (.star (.chr isWordChar))

/-- `.` (any character except newline). -/
def reDot : RE := .chr (fun c => c ≠ '\n')

/-- `.*`. -/
def reDotStar : RE := .star reDot

/-- `["\x27]`. -/
def reQuote : RE := .chr (fun c => c = '"' || c = '\x27')

/-- `[^"\x27]*`. -/
def reNotQuoteStar : RE := .star (.chr (fun c => c ≠ '"' && c ≠ '\x27'))

/-- `name\s*\(` (case-sensitive). -/
def patCall (name : String) : RE := reSeqs [reLit name, reWS0, reLit "("]

/-- `name\s*\(` with `re.IGNORECASE`. -/
def patCallCI (name : String) : RE := reSeqs [reLitCI name, reWS0, reLit "("]

/-- `name\s*=\s*["\x27][^"\x27]*["\x27]` with `re.IGNORECASE`. -/
def patAssignQuoteCI (name : String) : RE :=
  reSeqs [reLitCI name, reWS0, reLit "=", reWS0, reQuote, reNotQuoteStar, reQuote]

/-! ### Code scorers -/

/-- Models `line.strip()`. -/
def trimList (cs : List Char) : List Char :=
  ((cs.dropWhile Char.isWhitespace).reverse.dropWhile Char.isWhitespace).reverse

/-- Models `code.split(chr(10))`. -/
def pyLines (cs : List Char) : List (List Char) := splitList (fun c => c = '\n') cs

/-- The `dangerous_patterns` list of `_analyze_python_code` (searched with
`re.IGNORECASE`). -/
def pythonDangerousPatterns : List RE :=
  [patCallCI "eval", patCallCI "exec", patCallCI "os.system", patCallCI "subprocess.call",
   patAssignQuoteCI "password", patAssignQuoteCI "secret"]

/-- `_analyze_python_code`. -/
def analyze_python_code (code : String) (_design_doc : DesignDoc) : QualityMetrics :=
  let lines := pyLines code.data
  let has_imports := lines.any (fun line =>
    "import ".data.isPrefixOf (trimList line) || "from ".data.isPrefixOf (trimList line))
  let has_functions := containsSub code.data "def ".data
  let has_classes := containsSub code.data "class ".data
  let has_main := containsSub code.data "__main__".data || containsSub code.data "if __name__".data
  let structure_score := (b2q has_imports + b2q (has_functions || has_classes) + b2q has_main) / 3
  let has_try_except := containsSub code.data "try:".data && containsSub code.data "except".data
  let has_logging := containsSub code.data "logging".data || containsSub code.data "logger".data
  let error_score := (b2q has_try_except + b2q has_logging) / 2
  let has_docstrings :=
    containsSub code.data "\"\"\"".data || containsSub code.data "\x27\x27\x27".data
  let has_comments := lines.any (fun line => "#".data.isPrefixOf (trimList line))
  let doc_score := (b2q has_docstrings + b2q has_comments) / 2
  let security_issues := (pythonDangerousPatterns.filter (fun p => reSearch p code.data)).length
  let security_score := max 0 (1 - (security_issues : ℚ) * 0.2)
  let overall := (structure_score + error_score + doc_score + security_score) / 4
  { completeness_score := structure_score
    consistency_score := doc_score
    security_score := security_score
    best_practices_score := error_score
    overall_score := overall }

/-- The `dangerous_patterns` list of `_analyze_javascript_code` (searched
with `re.IGNORECASE`). -/
def jsDangerousPatterns : List RE :=
  [patCallCI "eval",
   reSeqs [reLitCI "innerHTML", reWS0, reLit "="],
   patCallCI "document.write",
   reSeqs [reLitCI "setTimeout", reWS0, reLit "(", reWS0, reQuote],
   reSeqs [reLitCI "setInterval", reWS0, reLit "(", reWS0, reQuote]]

/-- `_analyze_javascript_code`. -/
def analyze_javascript_code (code : String) (_design_doc : DesignDoc) : QualityMetrics :=
  let has_const_let := containsSub code.data "const ".data || containsSub code.data "let ".data
  let avoids_var :=
    countSubList "var ".data code.data = 0 || countSubList "var ".data code.data < 3
  let has_functions := containsSub code.data "function ".data || containsSub code.data "=>".data
  let _has_classes := containsSub code.data "class ".data
  let _has_modules :=
    containsSub code.data "export ".data || containsSub code.data "module.exports".data
  let structure_score := (b2q has_const_let + b2q has_functions + b2q avoids_var) / 3
  let has_try_catch := containsSub code.data "try \x7b".data && containsSub code.data "catch".data
  let has_promises := containsSub code.data ".then(".data || containsSub code.data "async".data ||
    containsSub code.data "await".data
  let error_score := (b2q has_try_catch + b2q has_promises) / 2
  let has_jsdoc := containsSub code.data "/**".data
  let has_comments := containsSub code.data "//".data
  let doc_score := (b2q has_jsdoc + b2q has_comments) / 2
  let security_issues := (jsDangerousPatterns.filter (fun p => reSearch p code.data)).length
  let security_issues := security_issues +
    (if containsSub code.data "innerHTML".data && !containsSub (lcs code) "sanitize".data
     then 1 else 0)
  let security_score := max 0 (1 - (security_issues : ℚ) * 0.25)
  let overall := (structure_score + error_score + doc_score + security_score) / 4
  { completeness_score := structure_score
    consistency_score := doc_score
    security_score := security_score
    best_practices_score := error_score
    overall_score := overall }

/-- `_analyze_java_code`. -/
def analyze_java_code (code : String) (_design_doc : DesignDoc) : QualityMetrics :=
  let has_package := containsSub code.data "package ".data
  let has_classes :=
    containsSub code.data "public class ".data || containsSub code.data "class ".data
  let _has_main := containsSub code.data "public static void main".data
  let has_imports := containsSub code.data "import ".data
  let structure_score := (b2q has_package + b2q has_classes + b2q has_imports) / 3
  let has_try_catch := containsSub code.data "try \x7b".data && containsSub code.data "catch".data
  let has_throws := containsSub code.data "throws ".data
  let error_score := (b2q has_try_catch + b2q has_throws) / 2
  let has_javadoc := containsSub code.data "/**".data
  let has_comments := containsSub code.data "//".data
  let doc_score := (b2q has_javadoc + b2q has_comments) / 2
  let security_score : ℚ := 0.7
  let security_score := security_score +
    (if containsSub code.data "PreparedStatement".data then (0.2 : ℚ) else 0)
  let security_score := security_score +
    (if containsSub code.data "MessageDigest".data || containsSub code.data "SecureRandom".data
     then (0.1 : ℚ) else 0)
  let overall := (structure_score + error_score + doc_score + security_score) / 4
  { completeness_score := structure_score
    consistency_score := doc_score
    security_score := security_score
    best_practices_score := error_score
    overall_score := overall }

/-- The per-line `comment_patterns` of `_analyze_generic_code`. -/
def genericCommentPatterns : List RE :=
  [RE.seq (reLit "#") reDotStar,
   RE.seq (reLit "//") reDotStar,
   reSeqs [reLit "/*", reDotStar, reLit "*/"],
   reSeqs [reLit "<!--", reDotStar, reLit "-->"]]

/-- The `suspicious_patterns` of `_analyze_generic_code` (searched with
`re.IGNORECASE`). -/
def genericSuspiciousPatterns : List RE :=
  [patAssignQuoteCI "password", patAssignQuoteCI "secret",
   patAssignQuoteCI "key", patAssignQuoteCI "token"]

/-- `_analyze_generic_code`. -/
def analyze_generic_code (code : String) (_design_doc : DesignDoc) : QualityMetrics :=
  let lines := pyLines code.data
  let non_empty_lines := lines.filter (fun l => !(trimList l).isEmpty)
  let structure_score := min 1 ((non_empty_lines.length : ℚ) / 30)
  let comment_lines :=
    (lines.filter (fun l => genericCommentPatterns.any (fun p => reSearch p l))).length
  let doc_score := min 1 ((comment_lines : ℚ) / max 1 ((non_empty_lines.length : ℚ) * 0.1))
  let security_issues :=
    (genericSuspiciousPatterns.filter (fun p => reSearch p code.data)).length
  let security_score := max 0 (1 - (security_issues : ℚ) * 0.25)
  let overall := (structure_score + doc_score + security_score) / 3
  { completeness_score := structure_score
    consistency_score := doc_score
    security_score := security_score
    best_practices_score := 0.7
    overall_score := overall }

/-- `_generate_code_feedback`. -/
def generate_code_feedback (metrics : QualityMetrics) (_code : String) (language : String) :
    String :=
  let feedback : List String := []
  let feedback := feedback ++
    (if metrics.completeness_score < 0.7 then
      ["Code structure could be improved for " ++ language ++ " best practices"] else [])
  let feedback := feedback ++
    (if metrics.security_score < 0.7 then
      ["Security vulnerabilities detected - review input validation and avoid dangerous functions"]
     else [])
  let feedback := feedback ++
    (if metrics.best_practices_score < 0.7 then
      ["Add more error handling, logging, and defensive programming practices"] else [])
  let feedback := feedback ++
    (if metrics.consistency_score < 0.7 then
      ["Improve code documentation and comments for better maintainability"] else [])
  let feedback := feedback ++
    (if metrics.overall_score ≥ 0.9 then
      ["High-quality " ++ language ++ " code following excellent practices"]
     else if metrics.overall_score ≥ 0.75 then
      ["Good " ++ language ++ " code with solid structure and practices"]
     else [])
  if feedback.isEmpty then "Code meets " ++ language ++ " quality standards"
  else joinDot feedback

/-- `analyze_code`, with the try/except control flow explicit. -/
def analyzeCodeWith (level : AutonomyLevel) (history : List DecisionRecord)
    (now : String) (input : Except String (String × DesignDoc × String)) :
    AnalyzeResult × List DecisionRecord :=
  match input with
  | .error e =>
      (⟨"Denied", ⟨0.5, 0.5, 0.5, 0.5, 0.5⟩, "Analysis failed: " ++ e⟩, history)
  | .ok (code, design_doc, language) =>
      let metrics :=
        if lcs language = "python".data then analyze_python_code code design_doc
        else if lcs language = "javascript".data || lcs language = "typescript".data then
          analyze_javascript_code code design_doc
        else if lcs language = "java".data then analyze_java_code code design_doc
        else analyze_generic_code code design_doc
      let feedback := generate_code_feedback metrics code language
      decideAndLog "code_review" level history now metrics feedback

/-- `analyze_code` on ordinary (non-raising) input. -/
def analyze_code (level : AutonomyLevel) (history : List DecisionRecord)
    (now : String) (code : String) (design_doc : DesignDoc) (language : String) :
    AnalyzeResult × List DecisionRecord :=
  analyzeCodeWith level history now (.ok (code, design_doc, language))

/-! ### Security scorer -/

/-- The SQL-injection patterns of `_check_common_vulnerabilities`
(searched with `re.IGNORECASE`; one hit counts once). -/
def sqlInjectionPatterns : List RE :=
  [reSeqs [RE.alt (reLitCI "SELECT")
             (RE.alt (reLitCI "INSERT") (RE.alt (reLitCI "UPDATE") (reLitCI "DELETE"))),
           reDotStar, reLit "+", reDotStar, reQuote],
   reSeqs [reLitCI "query", reDotStar, reLit "%", reDotStar, reQuote],
   reSeqs [reLitCI "execute", reDotStar, reLit "%", reDotStar, reQuote]]

/-- The language-keyed `dangerous_functions` table of
`_check_common_vulnerabilities` (searched case-sensitively). -/
def dangerousFunctions (languageLower : List Char) : List RE :=
  if languageLower = "python".data then
    [patCall "os.system", patCall "subprocess.call", patCall "eval", patCall "exec"]
  else if languageLower = "javascript".data then
    [patCall "eval", patCall "Function",
     reSeqs [reLit "setTimeout", reWS0, reLit "(", reWS0, reQuote],
     reSeqs [reLit "setInterval", reWS0, reLit "(", reWS0, reQuote]]
  else if languageLower = "java".data then
    [patCall "Runtime.exec", patCall "ProcessBuilder"]
  else if languageLower = "php".data then
    [patCall "eval", patCall "exec", patCall "system", patCall "shell_exec"]
  else if languageLower = "go".data then
    [patCall "exec.Command", patCall "os.Exec"]
  else if languageLower = "csharp".data then
    [patCall "Process.Start", reLit "System.Diagnostics.Process"]
  else []

/-- The XSS patterns of `_check_common_vulnerabilities` (searched
case-sensitively; one hit counts once). -/
def xssPatterns : List RE :=
  [reSeqs [reLit "innerHTML", reWS0, reLit "="],
   patCall "document.write",
   reSeqs [reLit "echo", reWS1, reLit "$_"]]

/-- `_check_common_vulnerabilities`. -/
def check_common_vulnerabilities (code : String) (language : String) : Nat :=
  let vulnerabilities := if sqlInjectionPatterns.any (fun p => reSearch p code.data) then 1 else 0
  let lang_functions := dangerousFunctions (lcs language)
  let vulnerabilities := vulnerabilities +
    (lang_functions.filter (fun p => reSearch p code.data)).length
  let vulnerabilities := vulnerabilities +
    (if (lcs language = "javascript".data || lcs language = "typescript".data ||
         lcs language = "php".data) &&
        xssPatterns.any (fun p => reSearch p code.data && !containsSub (lcs code) "sanitize".data)
     then 1 else 0)
  vulnerabilities

/-- The keyword lists of `_check_auth_implementation`. -/
def authKeywords : List (List Char) :=
  ["authenticate", "authorization", "login", "token",
   "session", "jwt", "auth", "password", "credential"].map String.data

/-- Secure-auth bonus patterns of `_check_auth_implementation`. -/
def secureAuthPatterns : List (List Char) :=
  ["bcrypt", "hash", "salt", "pepper", "scrypt", "argon2"].map String.data

/-- `_check_auth_implementation`. -/
def check_auth_implementation (code : String) : ℚ :=
  let auth_score : ℚ := 0.3
  let code_lower := lcs code
  let auth_score := auth_score +
    (authKeywords.map (fun k => if containsSub code_lower k then (0.1 : ℚ) else 0)).sum
  let auth_score := auth_score +
    (secureAuthPatterns.map (fun k => if containsSub code_lower k then (0.1 : ℚ) else 0)).sum
  min 1 auth_score

/-- The keyword list of `_check_input_validation`. -/
def validationKeywords : List (List Char) :=
  ["validate", "sanitize", "escape", "filter", "check",
   "verify", "clean", "strip", "trim", "regex"].map String.data

/-- The `validation_patterns` regexes of `_check_input_validation`
(searched case-sensitively). -/
def validationPatterns : List RE :=
  [reSeqs [reLit "if", reWS1, reDotStar, reWS1,
           RE.alt (reLit "len") (reLit "length"), reWS0, reLit "("],
   patCall "isinstance",
   patCall "match",
   reSeqs [reLit "in", reWS1, reLit "[", reDotStar, reLit "]"]]

/-- `_check_input_validation`. -/
def check_input_validation (code : String) : ℚ :=
  let validation_score : ℚ := 0.3
  let code_lower := lcs code
  let validation_score := validation_score +
    (validationKeywords.map (fun k => if containsSub code_lower k then (0.1 : ℚ) else 0)).sum
  let validation_score := validation_score +
    (validationPatterns.map (fun p => if reSearch p code.data then (0.05 : ℚ) else 0)).sum
  min 1 validation_score

/-- The keyword list of `_check_encryption`. -/
def encryptionKeywords : List (List Char) :=
  ["encrypt", "decrypt", "hash", "bcrypt", "sha", "aes",
   "ssl", "tls", "https", "crypto", "cipher"].map String.data

/-- `_check_encryption`. -/
def check_encryption (code : String) : ℚ :=
  let encryption_score : ℚ := 0.5
  let code_lower := lcs code
  let encryption_score := encryption_score +
    (encryptionKeywords.map (fun k => if containsSub code_lower k then (0.08 : ℚ) else 0)).sum
  min 1 encryption_score

/-- `_generate_security_feedback`. -/
def generate_security_feedback (metrics : QualityMetrics) (_code : String)
    (vulnerabilities : Nat) : String :=
  let feedback : List String := []
  let feedback := feedback ++
    (if vulnerabilities > 0 then
      ["Found " ++ toString vulnerabilities ++
       " potential security vulnerabilities that need attention"] else [])
  let feedback := feedback ++
    (if metrics.security_score < 0.7 then
      ["Implement proper input validation, sanitization, and secure coding practices"] else [])
  let feedback := feedback ++
    (if metrics.overall_score < 0.6 then
      ["Critical security improvements needed before deployment"]
     else if metrics.overall_score ≥ 0.9 then
      ["Code follows security best practices with minimal risk"]
     else if metrics.overall_score ≥ 0.75 then
      ["Good security posture with minor improvements needed"]
     else [])
  if feedback.isEmpty then "Security review passed with acceptable risk level"
  else joinDot feedback

/-- `analyze_security`, with the try/except control flow explicit. -/
def analyzeSecurityWith (level : AutonomyLevel) (history : List DecisionRecord)
    (now : String) (input : Except String (String × String)) :
    AnalyzeResult × List DecisionRecord :=
  match input with
  | .error e =>
      (⟨"Denied", ⟨0.5, 0.5, 0.5, 0.5, 0.5⟩, "Security analysis failed: " ++ e⟩, history)
  | .ok (code, language) =>
      let vulnerabilities := check_common_vulnerabilities code language
      let auth_score := check_auth_implementation code
      let validation_score := check_input_validation code
      let encryption_score := check_encryption code
      let security_score := max 0 (1 - (vulnerabilities : ℚ) * 0.1)
      let overall := (security_score + auth_score + validation_score + encryption_score) / 4
      let metrics : QualityMetrics :=
        { completeness_score := 1.0
          consistency_score := 1.0
          security_score := security_score
          best_practices_score := overall
          overall_score := overall }
      let feedback := generate_security_feedback metrics code vulnerabilities
      decideAndLog "security_review" level history now metrics feedback

/-- `analyze_security` on ordinary (non-raising) input. -/
def analyze_security (level : AutonomyLevel) (history : List DecisionRecord)
    (now : String) (code : String) (language : String) :
    AnalyzeResult × List DecisionRecord :=
  analyzeSecurityWith level history now (.ok (code, language))

/-! ### Test-case scorer -/

/-- The `function_patterns` of `_estimate_test_coverage` (counted with
`re.findall`, case-sensitively). -/
def testFunctionPatterns : List RE :=
  [reSeqs [reLit "def", reWS1, reWord1],
   reSeqs [reLit "function", reWS1, reWord1],
   reSeqs [reLit "public", reWS1, reWord1],
   reSeqs [reLit "func", reWS1, reWord1]]

/-- `_estimate_test_coverage`. -/
def estimate_test_coverage (test_cases code : String) : ℚ :=
  if test_cases.isEmpty || code.isEmpty then 0
  else
    let function_count := (testFunctionPatterns.map (fun p => findallCount p code.data)).sum
    let test_count :=
      max (max (countSubList "[Test Case Name]".data test_cases.data)
               (countSubList "def test_".data test_cases.data))
          (max (countSubList "test(".data test_cases.data)
               (countSubList "@Test".data test_cases.data))
    if function_count = 0 then (if test_count > 0 then 0.5 else 0)
    else
      let coverage_ratio := (test_count : ℚ) / ((function_count : ℚ) * 2.5)
      min 1 coverage_ratio

/-- The weighted `structure_elements` of `_check_test_quality`
(substring checks, case-sensitive). -/
def testStructureElements : List (List Char × ℚ) :=
  [("[Test Steps]".data, 0.2), ("[Expected Result]".data, 0.2),
   ("[Test Type]".data, 0.15), ("[Description]".data, 0.15),
   ("assert".data, 0.15), ("expect".data, 0.15)]

/-- `_check_test_quality`. -/
def check_test_quality (test_cases : String) : ℚ :=
  if test_cases.isEmpty then 0
  else
    let quality_score : ℚ :=
      (testStructureElements.map (fun ew =>
        if containsSub test_cases.data ew.1 then ew.2 else 0)).sum
    min 1 quality_score

/-- The test-type names of `_check_test_types`. -/
def testTypeNames : List (List Char) :=
  ["unit", "integration", "e2e", "performance", "security", "negative", "edge"].map String.data

/-- `_check_test_types`. -/
def check_test_types (test_cases : String) : ℚ :=
  let found_types :=
    (testTypeNames.filter (fun t => containsSub (lcs test_cases) t)).length
  min 1 ((found_types : ℚ) / 4)

/-- The weighted `practices` of `_check_test_best_practices`. -/
def testPractices : List (List Char × ℚ) :=
  [("edge".data, 0.15), ("boundary".data, 0.15), ("negative".data, 0.15),
   ("invalid".data, 0.1), ("setup".data, 0.1), ("teardown".data, 0.1),
   ("mock".data, 0.1), ("stub".data, 0.1)]

/-- `_check_test_best_practices`. -/
def check_test_best_practices (test_cases : String) : ℚ :=
  let score : ℚ := 0.4
  let test_cases_lower := lcs test_cases
  let score := score +
    (testPractices.map (fun pw => if containsSub test_cases_lower pw.1 then pw.2 else 0)).sum
  min 1 score

/-- `_generate_test_feedback`. -/
def generate_test_feedback (metrics : QualityMetrics) (_test_cases : String) : String :=
  let feedback : List String := []
  let feedback := feedback ++
    (if metrics.completeness_score < 0.7 then
      ["Test coverage could be improved - add more test cases for better coverage"] else [])
  let feedback := feedback ++
    (if metrics.consistency_score < 0.7 then
      ["Ensure test cases have complete structure (steps, expected results, descriptions)"]
     else [])
  let feedback := feedback ++
    (if metrics.best_practices_score < 0.7 then
      ["Add more edge cases, negative tests, and boundary condition testing"] else [])
  let feedback := feedback ++
    (if metrics.overall_score ≥ 0.9 then
      ["Comprehensive test suite with excellent coverage and quality"]
     else if metrics.overall_score ≥ 0.75 then
      ["Good test suite with solid coverage"]
     else [])
  if feedback.isEmpty then "Test cases are well-designed and comprehensive"
  else joinDot feedback

/-- `analyze_test_cases`, with the try/except control flow explicit. -/
def analyzeTestCasesWith (level : AutonomyLevel) (history : List DecisionRecord)
    (now : String) (input : Except String (String × String)) :
    AnalyzeResult × List DecisionRecord :=
  match input with
  | .error e =>
      (⟨"Denied", ⟨0.5, 0.5, 1.0, 0.5, 0.5⟩, "Test analysis failed: " ++ e⟩, history)
  | .ok (test_cases, code) =>
      let coverage := estimate_test_coverage test_cases code
      let quality := check_test_quality test_cases
      let test_types := check_test_types test_cases
      let best_practices := check_test_best_practices test_cases
      let overall := (coverage + quality + test_types + best_practices) / 4
      let metrics : QualityMetrics :=
        { completeness_score := coverage
          consistency_score := quality
          security_score := 1.0
          best_practices_score := best_practices
          overall_score := overall }
      let feedback := generate_test_feedback metrics test_cases
      decideAndLog "test_cases" level history now metrics feedback

/-- `analyze_test_cases` on ordinary (non-raising) input. -/
def analyze_test_cases (level : AutonomyLevel) (history : List DecisionRecord)
    (now : String) (test_cases : String) (code : String) :
    AnalyzeResult × List DecisionRecord :=
  analyzeTestCasesWith level history now (.ok (test_cases, code))

/-! ### QA-result scorer -/

/-- The `critical_keywords` of `_check_critical_failures`. -/
def criticalKeywords : List (List Char) :=
  ["crash", "critical", "blocker", "security breach",
   "data loss", "corruption", "severe", "fatal"].map String.data

/-- `_check_critical_failures`: the number of critical keywords present. -/
def check_critical_failures (qa_feedback : String) : Nat :=
  (criticalKeywords.filter (fun k => containsSub (lcs qa_feedback) k)).length

/-- Positive performance indicators of `_check_performance_indicators`. -/
def positiveIndicators : List (List Char) :=
  ["fast", "quick", "responsive", "efficient", "optimized"].map String.data

/-- Negative performance indicators of `_check_performance_indicators`. -/
def negativeIndicators : List (List Char) :=
  ["slow", "timeout", "lag", "delay", "bottleneck", "memory leak"].map String.data

/-- `_check_performance_indicators`. -/
def check_performance_indicators (qa_feedback : String) : ℚ :=
  let performance_score : ℚ := 0.6
  let qa_lower := lcs qa_feedback
  let performance_score := performance_score +
    (positiveIndicators.map (fun k => if containsSub qa_lower k then (0.08 : ℚ) else 0)).sum
  let performance_score := performance_score -
    (negativeIndicators.map (fun k => if containsSub qa_lower k then (0.15 : ℚ) else 0)).sum
  max 0 (min 1 performance_score)

/-- `_generate_qa_feedback`. -/
def generate_qa_feedback (metrics : QualityMetrics) (_qa_feedback : String) : String :=
  let feedback : List String := []
  let feedback := feedback ++
    (if metrics.completeness_score < 0.7 then
      ["Some tests are failing - review and fix issues before deployment"] else [])
  let feedback := feedback ++
    (if metrics.best_practices_score < 0.7 then
      ["Performance issues detected - optimization recommended"] else [])
  let feedback := feedback ++
    (if metrics.overall_score ≥ 0.9 then
      ["All tests passing with excellent performance metrics"]
     else if metrics.overall_score ≥ 0.75 then
      ["Most tests passing with good overall quality"]
     else [])
  if feedback.isEmpty then "QA validation completed successfully" else joinDot feedback

/-- `analyze_qa_results`, with the try/except control flow explicit. -/
def analyzeQaResultsWith (level : AutonomyLevel) (history : List DecisionRecord)
    (now : String) (input : Except String (String × String)) :
    AnalyzeResult × List DecisionRecord :=
  match input with
  | .error e =>
      (⟨"Denied", ⟨0.5, 1.0, 1.0, 0.5, 0.5⟩, "QA analysis failed: " ++ e⟩, history)
  | .ok (qa_feedback, _test_cases) =>
      let passed_tests := countSubList "passed".data (lcs qa_feedback)
      let failed_tests := countSubList "failed".data (lcs qa_feedback)
      let total_tests := passed_tests + failed_tests
      let test_pass_rate : ℚ :=
        if total_tests = 0 then 0.5 else (passed_tests : ℚ) / total_tests
      let critical_failures := check_critical_failures qa_feedback
      let performance := check_performance_indicators qa_feedback
      let overall :=
        (test_pass_rate + (1.0 - (critical_failures : ℚ) * 0.2) + performance) / 3
      let metrics : QualityMetrics :=
        { completeness_score := test_pass_rate
          consistency_score := 1.0
          security_score := 1.0
          best_practices_score := performance
          overall_score := overall }
      let feedback := generate_qa_feedback metrics qa_feedback
      decideAndLog "qa_review" level history now metrics feedback

/-- `analyze_qa_results` on ordinary (non-raising) input. -/
def analyze_qa_results (level : AutonomyLevel) (history : List DecisionRecord)
    (now : String) (qa_feedback : String) (test_cases : String) :
    AnalyzeResult × List DecisionRecord :=
  analyzeQaResultsWith level history now (.ok (qa_feedback, test_cases))

/-! ### ErrorRecoveryEngine -/

/-- The `error_details` dict: the keys the recovery strategies read
(`.get` with a default models a possibly missing key as `Option`). -/
structure ErrorDetails where
  retry_count : Option Nat
  timeout : Option Nat
  module : Option String
deriving DecidableEq, Repr

/-- The workflow `state` dict: the keys read by the recovery engine. -/
structure WorkflowState where
  active_node : Option String
  llm_model : Option String
deriving DecidableEq, Repr

/-- The structured recovery outcome dict returned by each strategy,
keyed by its `action` entry. -/
inductive RecoveryAction where
  | retry (wait_time : Nat) (attempt : Nat)
  | switch_model (fallback_model : String)
  | manual_intervention (message : String) (details : Option String)
  | enhance_prompt (suggestions : List String)
  | simplify_and_retry (strategy : String) (suggestion : String)
  | increase_timeout_and_retry (new_timeout : Nat) (suggestion : String)
  | install_dependency (module : String) (suggestion : String)
  | reset_stage (suggestion : String)
deriving DecidableEq, Repr

/-- The hard-coded `fallback_models` list of `_recover_from_api_error`. -/
def fallback_models : List String := ["gemma2-9b-it", "llama-3.1-70b-versatile"]

/-- `_recover_from_api_error`.  `time.sleep(wait_time)` is real time and is
not modelled; the returned `wait_time` entry is. -/
def recover_from_api_error (error_details : ErrorDetails) (state : WorkflowState) :
    Bool × RecoveryAction :=
  let retry_count := error_details.retry_count.getD 0
  if retry_count < 3 then
    let wait_time := min (2 ^ retry_count) 10
    (true, .retry wait_time (retry_count + 1))
  else
    let current_model := state.llm_model.getD "gemma2-9b-it"
    match fallback_models.find? (fun m => m ≠ current_model) with
    | some m => (true, .switch_model m)
    | none => (false, .manual_intervention "All API retry attempts failed" none)

/-- `_recover_from_validation_error`. -/
def recover_from_validation_error (_error_details : ErrorDetails) (_state : WorkflowState) :
    Bool × RecoveryAction :=
  (true, .enhance_prompt
    ["Add more specific requirements and examples",
     "Include technical constraints and preferences",
     "Break down complex requirements into smaller parts",
     "Specify user roles and personas more clearly"])

/-- `_recover_from_generation_error`. -/
def recover_from_generation_error (_error_details : ErrorDetails) (_state : WorkflowState) :
    Bool × RecoveryAction :=
  (true, .simplify_and_retry "break_into_smaller_parts"
    "Try reducing the scope or complexity of the current stage")

/-- `_recover_from_timeout_error`. -/
def recover_from_timeout_error (error_details : ErrorDetails) (_state : WorkflowState) :
    Bool × RecoveryAction :=
  (true, .increase_timeout_and_retry (min 180 ((error_details.timeout.getD 60) * 2))
    "Using longer timeout for complex operations")

/-- `_recover_from_import_error`. -/
def recover_from_import_error (error_details : ErrorDetails) (_state : WorkflowState) :
    Bool × RecoveryAction :=
  let missing_module := error_details.module.getD "unknown"
  (true, .install_dependency missing_module ("Install missing dependency: " ++ missing_module))

/-- `_recover_from_workflow_error`. -/
def recover_from_workflow_error (_error_details : ErrorDetails) (_state : WorkflowState) :
    Bool × RecoveryAction :=
  (true, .reset_stage "Reset current stage and try again with simplified parameters")

/-- Plain rendering of a details dict, standing in for Python
`str(error_details)` in `_generic_recovery` (its exact text is never
consumed by the claims). -/
def detailsRepr (d : ErrorDetails) : String := toString (repr d)

/-- `_generic_recovery`. -/
def generic_recovery (error_details : ErrorDetails) (_state : WorkflowState) :
    Bool × RecoveryAction :=
  (true, .manual_intervention
    "An unexpected error occurred. Manual review and intervention recommended."
    (some (detailsRepr error_details)))

/-- One entry of `error_history` as appended by `handle_error`.  The
source dict never receives a `recovered` key, and `get_error_summary`
reads it with `.get("recovered", False)`; that constant default is
modelled by the `recovered` field always being set to `false`. -/
structure ErrorRecord where
  type_ : String
  details : ErrorDetails
  timestamp : String
  state_stage : String
  recovered : Bool
deriving DecidableEq, Repr

/-- `ErrorRecoveryEngine.handle_error`: appends the record, then
dispatches on the `recovery_strategies` dict keys. -/
def handle_error (error_history : List ErrorRecord) (now : String)
    (error_type : String) (error_details : ErrorDetails) (state : WorkflowState) :
    (Bool × RecoveryAction) × List ErrorRecord :=
  let error_record : ErrorRecord :=
    { type_ := error_type
      details := error_details
      timestamp := now
      state_stage := state.active_node.getD "unknown"
      recovered := false }
  let history := error_history ++ [error_record]
  let result :=
    if error_type = "api_error" then recover_from_api_error error_details state
    else if error_type = "validation_error" then recover_from_validation_error error_details state
    else if error_type = "generation_error" then recover_from_generation_error error_details state
    else if error_type = "timeout_error" then recover_from_timeout_error error_details state
    else if error_type = "import_error" then recover_from_import_error error_details state
    else if error_type = "workflow_error" then recover_from_workflow_error error_details state
    else generic_recovery error_details state
  (result, history)

/-- Insertion-ordered per-kind counting dict:
`error_types[t] = error_types.get(t, 0) + 1`. -/
def bumpCount (l : List (String × Nat)) (k : String) : List (String × Nat) :=
  match l with
  | [] => [(k, 1)]
  | (k', n) :: rest => if k' = k then (k', n + 1) :: rest else (k', n) :: bumpCount rest k

/-- Dict lookup with default 0: `error_types.get(k, 0)`. -/
def lookupCount : List (String × Nat) → String → Nat
  | [], _ => 0
  | (kk, n) :: rest, k => if kk = k then n else lookupCount rest k

/-- The summary dict of `get_error_summary`; on an empty history the
source returns a dict without a `recovery_rate` key, modelled by
`none`. -/
structure ErrorSummary where
  total_errors : Nat
  error_types : List (String × Nat)
  last_error : Option ErrorRecord
  recovery_rate : Option ℚ
deriving DecidableEq, Repr

/-- `ErrorRecoveryEngine.get_error_summary`. -/
def get_error_summary (error_history : List ErrorRecord) : ErrorSummary :=
  if error_history.isEmpty then
    { total_errors := 0, error_types := [], last_error := none, recovery_rate := none }
  else
    let error_types := error_history.foldl (fun acc e => bumpCount acc e.type_) []
    { total_errors := error_history.length
      error_types := error_types
      last_error := error_history.getLast?
      recovery_rate :=
        some (((error_history.filter (fun e => e.recovered)).length : ℚ) /
          error_history.length) }

/-! ### WorkflowOptimizer -/

/-- One entry of `performance_history`; `_calculate_trend` reads only
the `score` entry (the `data` payload dict is not consulted by it). -/
structure PerformanceRecord where
  timestamp : String
  score : ℚ
  suggestions_count : Nat
deriving DecidableEq, Repr

/-- `WorkflowOptimizer._calculate_trend`. -/
def calculate_trend (performance_history : List PerformanceRecord) : String :=
  if performance_history.length < 3 then "insufficient_data"
  else
    let recent_count := min 5 performance_history.length
    let recent_scores :=
      (performance_history.drop (performance_history.length - recent_count)).map
        (fun h => h.score)
    let avg_recent := recent_scores.sum / (recent_scores.length : ℚ)
    if performance_history.length > recent_count then
      let older_scores :=
        (performance_history.take (performance_history.length - recent_count)).map
          (fun h => h.score)
      let avg_older := older_scores.sum / (older_scores.length : ℚ)
      let improvement_threshold : ℚ := 0.05
      if avg_recent > avg_older + improvement_threshold then "improving"
      else if avg_recent < avg_older - improvement_threshold then "declining"
      else "stable"
    else "insufficient_data"

/-! ## Shared helper lemmas -/

/-- The result triple of `decideAndLog`, with the threshold comparison
exposed as a propositional if. -/
theorem decideAndLog_fst (stage : String) (level : AutonomyLevel)
    (history : List DecisionRecord) (now : String) (metrics : QualityMetrics)
    (feedback : String) :
    (decideAndLog stage level history now metrics feedback).1 =
      ⟨if quality_thresholds level ≤ metrics.overall_score then "Approve" else "Denied",
       metrics, feedback⟩ := by
  simp [decideAndLog, QualityMetrics.meets_threshold]

/-- A logged decision is the string Approve exactly when the overall score
reaches the autonomy threshold. -/
theorem decideAndLog_approve_iff (stage : String) (level : AutonomyLevel)
    (history : List DecisionRecord) (now : String) (metrics : QualityMetrics)
    (feedback : String) :
    ((decideAndLog stage level history now metrics feedback).1.decision = "Approve" ↔
      quality_thresholds level ≤ metrics.overall_score) := by
  rw [decideAndLog_fst]
  dsimp only
  split <;> simp_all

/-- Looking a key up after one `bumpCount` adds one exactly for that key. -/
theorem lookupCount_bumpCount (l : List (String × Nat)) (kb k : String) :
    lookupCount (bumpCount l kb) k = lookupCount l k + (if kb = k then 1 else 0) := by
  induction l with
  | nil => by_cases hkk : kb = k <;> simp [bumpCount, lookupCount, hkk]
  | cons p rest ih =>
    obtain ⟨a, n⟩ := p
    by_cases hab : a = kb
    · by_cases hak : a = k
      · have hkk : kb = k := hab.symm.trans hak
        simp [bumpCount, lookupCount, hab, hak, hkk]
      · have hkk : ¬ kb = k := fun hkb => hak (hab.trans hkb)
        simp [bumpCount, lookupCount, hab, hak, hkk]
    · by_cases hak : a = k
      · have hkk : ¬ kb = k := fun hkb => hab (hak.trans hkb.symm)
        simp [bumpCount, lookupCount, hab, hak, hkk, Ne.symm hkk]
      · simp [bumpCount, lookupCount, hab, hak, ih]

/-- The per-kind counting fold of `get_error_summary` computes, for every
key, the number of history records of that kind. -/
theorem lookupCount_foldl_bump (h : List ErrorRecord) (acc : List (String × Nat))
    (k : String) :
    lookupCount (h.foldl (fun a e => bumpCount a e.type_) acc) k =
      lookupCount acc k + (h.filter (fun e => e.type_ = k)).length := by
  induction h generalizing acc with
  | nil => simp
  | cons e t ih =>
    simp only [List.foldl_cons, ih, List.filter_cons]
    rw [lookupCount_bumpCount]
    by_cases he : e.type_ = k <;> (simp [he]; try omega)

/-! ## Claim theorems -/

/-- Story list used in the C1 counterexample: one perfectly formatted,
testable story of admissible length. -/
def c1Stories : List String :=
  ["As a user I want ensure login works so that access checks succeed"]

/-- Requirements text used in the C1 counterexample: every requirement
keyword occurs in the story. -/
def c1Requirements : String := "user login access"

/-- C1 counterexample: with autonomy level Manual (threshold 1.0), a story
set scoring exactly 1.0 overall is auto-approved — `analyze_user_stories`
returns the decision Approve, so Manual does not make approval unreachable. -/
theorem c1_counterexample :
    (analyze_user_stories .manual [] "t0" c1Stories c1Requirements).1.decision = "Approve" ∧
    (analyze_user_stories .manual [] "t0" c1Stories
      c1Requirements).1.metrics.overall_score = 1 := by
  constructor <;>
    (simp +decide [analyze_user_stories, analyzeUserStoriesWith, decideAndLog,
       QualityMetrics.meets_threshold, quality_thresholds, c1Stories, c1Requirements,
       check_story_completeness, check_requirements_alignment, check_story_best_practices,
       keywordTokens, wordTokens, splitList, splitListAux, lcs, reqStopwords,
       testableIndicators, containsSub, pySplit]
     norm_num)

/-- C1 (amended): with autonomy level Manual (approval threshold 1.0), each
of the six analyze operations returns the decision Approve exactly when the
overall score reaches 1.0 — which is achievable — and Denied for every
input whose overall score is below 1.0. -/
theorem c1_manual_approve_iff_overall_one (history : List DecisionRecord) (now : String)
    (stories : List String) (requirements : String) (design_doc : DesignDoc)
    (code : String) (language : String) (test_cases qa_feedback : String) :
    ((analyze_user_stories .manual history now stories requirements).1.decision = "Approve" ↔
      1 ≤ (analyze_user_stories .manual history now stories
        requirements).1.metrics.overall_score) ∧
    ((analyze_design_document .manual history now design_doc stories).1.decision = "Approve" ↔
      1 ≤ (analyze_design_document .manual history now design_doc
        stories).1.metrics.overall_score) ∧
    ((analyze_code .manual history now code design_doc language).1.decision = "Approve" ↔
      1 ≤ (analyze_code .manual history now code design_doc
        language).1.metrics.overall_score) ∧
    ((analyze_security .manual history now code language).1.decision = "Approve" ↔
      1 ≤ (analyze_security .manual history now code language).1.metrics.overall_score) ∧
    ((analyze_test_cases .manual history now test_cases code).1.decision = "Approve" ↔
      1 ≤ (analyze_test_cases .manual history now test_cases
        code).1.metrics.overall_score) ∧
    ((analyze_qa_results .manual history now qa_feedback test_cases).1.decision = "Approve" ↔
      1 ≤ (analyze_qa_results .manual history now qa_feedback
        test_cases).1.metrics.overall_score) := by
  refine ⟨?_, ?_, ?_, ?_, ?_, ?_⟩
  · exact decideAndLog_approve_iff "user_stories" .manual history now _ _
  · exact decideAndLog_approve_iff "design_document" .manual history now _ _
  · exact decideAndLog_approve_iff "code_review" .manual history now _ _
  · exact decideAndLog_approve_iff "security_review" .manual history now _ _
  · exact decideAndLog_approve_iff "test_cases" .manual history now _ _
  · exact decideAndLog_approve_iff "qa_review" .manual history now _ _

/-- QA feedback used for C2: one failed token, six critical keywords, and
four negative performance indicators. -/
def c2QaFeedback : String :=
  "failed crash critical blocker severe fatal corruption slow timeout lag delay"

/-- C2: the claimed invariant that every produced score lies in the closed
interval 0 to 1 is violated by `analyze_qa_results` — the middle term of
its overall formula, 1 minus 0.2 per critical failure, is not floored, so
at this input the overall score is minus one fifteenth, strictly below 0. -/
theorem c2_qa_overall_negative :
    (analyze_qa_results .semi_auto [] "t0" c2QaFeedback "").1.metrics.overall_score =
      -(1 / 15) ∧
    (analyze_qa_results .semi_auto [] "t0" c2QaFeedback "").1.metrics.overall_score < 0 := by
  have hpassed : countSubList "passed".data (lcs c2QaFeedback) = 0 := by decide
  have hfailed : countSubList "failed".data (lcs c2QaFeedback) = 1 := by decide
  have hcrit : check_critical_failures c2QaFeedback = 6 := by decide
  constructor <;>
    (simp +decide only [analyze_qa_results, analyzeQaResultsWith, decideAndLog,
       check_performance_indicators, positiveIndicators, negativeIndicators,
       hpassed, hfailed, hcrit, List.map, List.sum, String.data]
     norm_num)

/-- QA feedback used in the C3 counterexample: one failed token and one
critical keyword. -/
def c3QaFeedback : String := "failed crash"

/-- C3 counterexample: for `analyze_qa_results` at this input the overall
score (here 7/15) differs from the mean of the applicable reported
sub-scores under every reading of applicability — the middle overall term
(1 minus 0.2 per critical failure) is not a reported sub-score. -/
theorem c3_counterexample :
    ((analyze_qa_results .semi_auto [] "t0" c3QaFeedback "").1.metrics.overall_score ≠
      ((analyze_qa_results .semi_auto [] "t0" c3QaFeedback "").1.metrics.completeness_score +
       (analyze_qa_results .semi_auto [] "t0" c3QaFeedback
         "").1.metrics.best_practices_score) / 2) ∧
    ((analyze_qa_results .semi_auto [] "t0" c3QaFeedback "").1.metrics.overall_score ≠
      ((analyze_qa_results .semi_auto [] "t0" c3QaFeedback "").1.metrics.completeness_score +
       (analyze_qa_results .semi_auto [] "t0" c3QaFeedback "").1.metrics.consistency_score +
       (analyze_qa_results .semi_auto [] "t0" c3QaFeedback
         "").1.metrics.best_practices_score) / 3) ∧
    ((analyze_qa_results .semi_auto [] "t0" c3QaFeedback "").1.metrics.overall_score ≠
      ((analyze_qa_results .semi_auto [] "t0" c3QaFeedback "").1.metrics.completeness_score +
       (analyze_qa_results .semi_auto [] "t0" c3QaFeedback "").1.metrics.security_score +
       (analyze_qa_results .semi_auto [] "t0" c3QaFeedback
         "").1.metrics.best_practices_score) / 3) ∧
    ((analyze_qa_results .semi_auto [] "t0" c3QaFeedback "").1.metrics.overall_score ≠
      ((analyze_qa_results .semi_auto [] "t0" c3QaFeedback "").1.metrics.completeness_score +
       (analyze_qa_results .semi_auto [] "t0" c3QaFeedback "").1.metrics.consistency_score +
       (analyze_qa_results .semi_auto [] "t0" c3QaFeedback "").1.metrics.security_score +
       (analyze_qa_results .semi_auto [] "t0" c3QaFeedback
         "").1.metrics.best_practices_score) / 4) := by
  have hpassed : countSubList "passed".data (lcs c3QaFeedback) = 0 := by decide
  have hfailed : countSubList "failed".data (lcs c3QaFeedback) = 1 := by decide
  have hcrit : check_critical_failures c3QaFeedback = 1 := by decide
  refine ⟨?_, ?_, ?_, ?_⟩ <;>
    (simp +decide only [analyze_qa_results, analyzeQaResultsWith, decideAndLog,
       check_performance_indicators, positiveIndicators, negativeIndicators,
       hpassed, hfailed, hcrit, List.map, List.sum, String.data]
     norm_num)

/-- C3 (amended): the overall score equals the arithmetic mean of the
applicable sub-scores for `analyze_user_stories` (security not applicable,
reported as a pass 1.0 and excluded from the mean of the other three), for
`analyze_design_document`, and for the python, javascript and java code
analyses (all four sub-scores applicable); the remaining scorers
(`analyze_security`, `analyze_test_cases`, `analyze_qa_results`) average
internal component scores instead, as the counterexample shows. -/
theorem c3_overall_mean_of_subscores (level : AutonomyLevel)
    (history : List DecisionRecord) (now : String) (stories : List String)
    (requirements : String) (design_doc : DesignDoc) (code : String) :
    ((analyze_user_stories level history now stories requirements).1.metrics.security_score = 1 ∧
     (analyze_user_stories level history now stories requirements).1.metrics.overall_score =
      ((analyze_user_stories level history now stories
         requirements).1.metrics.completeness_score +
       (analyze_user_stories level history now stories requirements).1.metrics.consistency_score +
       (analyze_user_stories level history now stories
         requirements).1.metrics.best_practices_score) / 3) ∧
    ((analyze_design_document level history now design_doc stories).1.metrics.overall_score =
      ((analyze_design_document level history now design_doc
         stories).1.metrics.completeness_score +
       (analyze_design_document level history now design_doc stories).1.metrics.consistency_score +
       (analyze_design_document level history now design_doc
         stories).1.metrics.best_practices_score +
       (analyze_design_document level history now design_doc
         stories).1.metrics.security_score) / 4) ∧
    ((analyze_code level history now code design_doc "python").1.metrics.overall_score =
      ((analyze_code level history now code design_doc "python").1.metrics.completeness_score +
       (analyze_code level history now code design_doc "python").1.metrics.best_practices_score +
       (analyze_code level history now code design_doc "python").1.metrics.consistency_score +
       (analyze_code level history now code design_doc "python").1.metrics.security_score) / 4) ∧
    ((analyze_code level history now code design_doc "javascript").1.metrics.overall_score =
      ((analyze_code level history now code design_doc
         "javascript").1.metrics.completeness_score +
       (analyze_code level history now code design_doc
         "javascript").1.metrics.best_practices_score +
       (analyze_code level history now code design_doc "javascript").1.metrics.consistency_score +
       (analyze_code level history now code design_doc
         "javascript").1.metrics.security_score) / 4) ∧
    ((analyze_code level history now code design_doc "java").1.metrics.overall_score =
      ((analyze_code level history now code design_doc "java").1.metrics.completeness_score +
       (analyze_code level history now code design_doc "java").1.metrics.best_practices_score +
       (analyze_code level history now code design_doc "java").1.metrics.consistency_score +
       (analyze_code level history now code design_doc "java").1.metrics.security_score) / 4) :=
  ⟨⟨by norm_num [analyze_user_stories, analyzeUserStoriesWith, decideAndLog], rfl⟩,
   rfl, rfl, rfl, rfl⟩

/-- C4 counterexample: on an assessment exception, `analyze_user_stories`
returns a fallback metrics whose security sub-score is 1.0 rather than
0.5, and appends no decision-log entry (the history stays empty). -/
theorem c4_counterexample :
    (analyzeUserStoriesWith .semi_auto [] "t0" (.error "boom")).1.metrics.security_score = 1 ∧
    (analyzeUserStoriesWith .semi_auto [] "t0"
      (.error "boom")).1.metrics.security_score ≠ 0.5 ∧
    (analyzeUserStoriesWith .semi_auto [] "t0" (.error "boom")).2 = [] := by
  refine ⟨?_, ?_, rfl⟩ <;> norm_num [analyzeUserStoriesWith]

/-- C4 (amended): when the internal assessment raises (modelled by an
`.error` input), each analyze operation returns the decision Denied, the
fallback QualityMetrics of its stage — sub-scores 0.5 except the
dimensions fixed at 1.0 for that stage (security for user stories and test
cases, consistency and security for QA results) — and a feedback string
naming the failure; no decision-log entry is appended. -/
theorem c4_exception_fallback (level : AutonomyLevel) (history : List DecisionRecord)
    (now : String) (e : String) :
    analyzeUserStoriesWith level history now (.error e) =
      (⟨"Denied", ⟨0.5, 0.5, 1, 0.5, 0.5⟩, "Analysis failed: " ++ e⟩, history) ∧
    analyzeDesignDocumentWith level history now (.error e) =
      (⟨"Denied", ⟨0.5, 0.5, 0.5, 0.5, 0.5⟩, "Analysis failed: " ++ e⟩, history) ∧
    analyzeCodeWith level history now (.error e) =
      (⟨"Denied", ⟨0.5, 0.5, 0.5, 0.5, 0.5⟩, "Analysis failed: " ++ e⟩, history) ∧
    analyzeSecurityWith level history now (.error e) =
      (⟨"Denied", ⟨0.5, 0.5, 0.5, 0.5, 0.5⟩, "Security analysis failed: " ++ e⟩, history) ∧
    analyzeTestCasesWith level history now (.error e) =
      (⟨"Denied", ⟨0.5, 0.5, 1, 0.5, 0.5⟩, "Test analysis failed: " ++ e⟩, history) ∧
    analyzeQaResultsWith level history now (.error e) =
      (⟨"Denied", ⟨0.5, 1, 1, 0.5, 0.5⟩, "QA analysis failed: " ++ e⟩, history) := by
  refine ⟨?_, ?_, ?_, ?_, ?_, ?_⟩ <;>
    (simp only [analyzeUserStoriesWith, analyzeDesignDocumentWith, analyzeCodeWith,
       analyzeSecurityWith, analyzeTestCasesWith, analyzeQaResultsWith,
       Prod.mk.injEq, AnalyzeResult.mk.injEq, QualityMetrics.mk.injEq]
     try norm_num)

/-- C5: for the api_error kind, `handle_error` dispatches to
`_recover_from_api_error`; for retry_count 0, 1, 2 it signals a recovery
with the action retry and a wait of min(2 to the retry_count, 10) seconds —
a non-decreasing sequence capped at 10 — and the attempt counter bumped;
once retry_count reaches 3 it instead switches to a configured fallback
model different from the current one (two fallbacks are configured, so a
distinct one always remains and the manual-intervention escape is for the
case none does). -/
theorem c5_api_error_retry_budget (error_details : ErrorDetails) (state : WorkflowState)
    (hist : List ErrorRecord) (now : String) :
    (handle_error hist now "api_error" error_details state).1 =
      recover_from_api_error error_details state ∧
    (error_details.retry_count.getD 0 < 3 →
      recover_from_api_error error_details state =
        (true, .retry (min (2 ^ (error_details.retry_count.getD 0)) 10)
          (error_details.retry_count.getD 0 + 1))) ∧
    (3 ≤ error_details.retry_count.getD 0 →
      ∃ m, m ∈ fallback_models ∧ m ≠ state.llm_model.getD "gemma2-9b-it" ∧
        recover_from_api_error error_details state = (true, .switch_model m)) ∧
    min (2 ^ (error_details.retry_count.getD 0)) 10 ≤
      min (2 ^ (error_details.retry_count.getD 0 + 1)) 10 ∧
    min (2 ^ (error_details.retry_count.getD 0)) 10 ≤ 10 := by
  refine ⟨rfl, ?_, ?_, ?_, min_le_right _ _⟩
  · intro h
    simp only [recover_from_api_error, if_pos h]
  · intro h
    simp only [recover_from_api_error,
      if_neg (by omega : ¬ error_details.retry_count.getD 0 < 3)]
    by_cases hc : state.llm_model.getD "gemma2-9b-it" = "gemma2-9b-it"
    · rw [hc]
      exact ⟨"llama-3.1-70b-versatile", by simp [fallback_models], by decide, rfl⟩
    · refine ⟨"gemma2-9b-it", by simp [fallback_models], fun hh => hc hh.symm, ?_⟩
      have hfind : List.find? (fun m => decide (m ≠ state.llm_model.getD "gemma2-9b-it"))
          ["gemma2-9b-it", "llama-3.1-70b-versatile"] = some "gemma2-9b-it" :=
        List.find?_cons_of_pos _ (by simpa using fun hh => hc hh.symm)
      simp only [fallback_models]
      rw [hfind]
  · exact min_le_min (Nat.pow_le_pow_right (by norm_num) (Nat.le_succ _)) (le_refl 10)

/-- Details dict at retry_count 2, for the C5 witness. -/
def c5Details2 : ErrorDetails := ⟨some 2, none, none⟩

/-- Details dict at retry_count 3, for the C5 witness. -/
def c5Details3 : ErrorDetails := ⟨some 3, none, none⟩

/-- Workflow state without an llm_model key, for the C5 witness. -/
def c5State : WorkflowState := ⟨none, none⟩

/-- C5 witness: at retry_count 2 the recovery is a retry with a 4-second
wait and attempt 3; at retry_count 3 it is a switch to a distinct fallback
model. -/
theorem c5_api_error_retry_budget_witness :
    recover_from_api_error c5Details2 c5State = (true, .retry 4 3) ∧
    (∃ m, m ∈ fallback_models ∧ m ≠ c5State.llm_model.getD "gemma2-9b-it" ∧
      recover_from_api_error c5Details3 c5State = (true, .switch_model m)) := by
  constructor
  · exact (c5_api_error_retry_budget c5Details2 c5State [] "t0").2.1 (by decide)
  · exact (c5_api_error_retry_budget c5Details3 c5State [] "t0").2.2.1 (by decide)

/-- C6: every `handle_error` call, whatever the error kind and recovery
outcome, appends exactly one ErrorRecord carrying the kind, the details,
the timestamp and the stage at failure; `get_error_summary` on the
resulting history reports the total count, the per-kind counts, the most
recent record, and the recovered-count over total-count ratio. -/
theorem c6_handle_error_history_and_summary (hist : List ErrorRecord) (now etype : String)
    (details : ErrorDetails) (state : WorkflowState) :
    ∃ r : ErrorRecord,
      (handle_error hist now etype details state).2 = hist ++ [r] ∧
      r.type_ = etype ∧ r.details = details ∧ r.timestamp = now ∧
      r.state_stage = state.active_node.getD "unknown" ∧
      (get_error_summary (handle_error hist now etype details state).2).total_errors =
        hist.length + 1 ∧
      (get_error_summary (handle_error hist now etype details state).2).last_error = some r ∧
      (∀ k, lookupCount
          (get_error_summary (handle_error hist now etype details state).2).error_types k =
        ((hist ++ [r]).filter (fun e => e.type_ = k)).length) ∧
      (get_error_summary (handle_error hist now etype details state).2).recovery_rate =
        some ((((hist ++ [r]).filter (fun e => e.recovered)).length : ℚ) /
          ((hist.length : ℚ) + 1)) := by
  refine ⟨⟨etype, details, now, state.active_node.getD "unknown", false⟩,
    rfl, rfl, rfl, rfl, rfl, ?_, ?_, ?_, ?_⟩
  · show (get_error_summary (hist ++ [_])).total_errors = _
    simp [get_error_summary]
  · show (get_error_summary (hist ++ [_])).last_error = _
    simp [get_error_summary]
  · intro k
    have hfold := lookupCount_foldl_bump
      (hist ++ [⟨etype, details, now, state.active_node.getD "unknown", false⟩]) [] k
    show lookupCount (get_error_summary (hist ++ [_])).error_types k = _
    simp only [get_error_summary]
    rw [if_neg (by simp)]
    simpa [lookupCount] using hfold
  · show (get_error_summary (hist ++ [_])).recovery_rate = _
    simp only [get_error_summary]
    rw [if_neg (by simp)]
    simp

/-- Performance history of exactly 3 records for the C7 counterexample. -/
def c7History3 : List PerformanceRecord :=
  [⟨"t1", 1, 0⟩, ⟨"t2", 0, 0⟩, ⟨"t3", 0, 0⟩]

/-- C7 counterexample: on a history of exactly 3 records the trend
computation returns insufficient_data, not one of improving, declining or
stable — for 3 to 5 records the whole history fits in the recent window,
no older records remain, and the code falls back to insufficient_data. -/
theorem c7_counterexample :
    calculate_trend c7History3 = "insufficient_data" ∧
    calculate_trend c7History3 ≠ "improving" ∧
    calculate_trend c7History3 ≠ "declining" ∧
    calculate_trend c7History3 ≠ "stable" ∧
    c7History3.length = 3 := by
  refine ⟨?_, ?_, ?_, ?_, by decide⟩ <;> simp [calculate_trend, c7History3]

/-- C7 (amended): the trend computation returns insufficient_data exactly
when the history holds fewer than 6 records; for 6 or more records it
compares the mean of the most recent 5 records against the mean of all
older records with the 0.05 improvement threshold and returns improving,
declining or stable. -/
theorem c7_trend_window (h : List PerformanceRecord) :
    (calculate_trend h = "insufficient_data" ↔ h.length < 6) ∧
    (6 ≤ h.length →
      calculate_trend h =
        (if ((h.drop (h.length - 5)).map (fun r => r.score)).sum / 5 >
            ((h.take (h.length - 5)).map (fun r => r.score)).sum /
              ((h.length : ℚ) - 5) + 0.05 then "improving"
         else if ((h.drop (h.length - 5)).map (fun r => r.score)).sum / 5 <
            ((h.take (h.length - 5)).map (fun r => r.score)).sum /
              ((h.length : ℚ) - 5) - 0.05 then "declining"
         else "stable")) := by
  have key : 6 ≤ h.length → calculate_trend h =
      (if ((h.drop (h.length - 5)).map (fun r => r.score)).sum / 5 >
          ((h.take (h.length - 5)).map (fun r => r.score)).sum /
            ((h.length : ℚ) - 5) + 0.05 then "improving"
       else if ((h.drop (h.length - 5)).map (fun r => r.score)).sum / 5 <
          ((h.take (h.length - 5)).map (fun r => r.score)).sum /
            ((h.length : ℚ) - 5) - 0.05 then "declining"
       else "stable") := by
    intro h6
    have hmin : min 5 h.length = 5 := min_eq_left (by omega)
    have hgt : h.length > 5 := by omega
    simp only [calculate_trend, hmin, if_neg (by omega : ¬ h.length < 3), if_pos hgt]
    have hdroplen : ((h.drop (h.length - 5)).map (fun r => r.score)).length = 5 := by
      simp [List.length_drop]; omega
    have htakelen : ((h.take (h.length - 5)).map (fun r => r.score)).length =
        h.length - 5 := by
      simp [List.length_take]
    have hcast : ((h.length - 5 : ℕ) : ℚ) = (h.length : ℚ) - 5 := by
      have h5 : (5 : ℕ) ≤ h.length := by omega
      push_cast [h5]
      ring
    rw [hdroplen, htakelen, hcast]
    norm_cast
  constructor
  · constructor
    · intro heq
      by_contra h6
      push_neg at h6
      have hkey := key h6
      rw [heq] at hkey
      split at hkey
      · exact absurd hkey (by decide)
      · split at hkey <;> exact absurd hkey (by decide)
    · intro h6
      by_cases h3 : h.length < 3
      · simp [calculate_trend, h3]
      · have hmin : min 5 h.length = h.length := min_eq_right (by omega)
        simp [calculate_trend, hmin, if_neg (by omega : ¬ h.length < 3)]
  · exact key

/-- Performance history of 6 records with an improving tail, for the C7
witness. -/
def c7History6 : List PerformanceRecord :=
  [⟨"t1", 0, 0⟩, ⟨"t2", 0, 0⟩, ⟨"t3", 0, 0⟩, ⟨"t4", 0, 0⟩, ⟨"t5", 0, 0⟩, ⟨"t6", 1, 0⟩]

/-- C7 witness: a 6-record history is past the insufficient-data window
and its trend evaluates to improving. -/
theorem c7_trend_window_witness :
    6 ≤ c7History6.length ∧ calculate_trend c7History6 = "improving" := by
  refine ⟨by decide, ?_⟩
  have hk := (c7_trend_window c7History6).2 (by decide)
  rw [hk]
  norm_num [c7History6]

/-- C8: on the empty story list, `analyze_user_stories` scores completeness
0 and overall 0 and returns the decision Denied; every autonomy level has
an approval threshold strictly greater than 0, so Deny holds at each. -/
theorem c8_empty_stories_denied (level : AutonomyLevel) (history : List DecisionRecord)
    (now : String) (requirements : String) :
    (analyze_user_stories level history now [] requirements).1.metrics.completeness_score = 0 ∧
    (analyze_user_stories level history now [] requirements).1.metrics.overall_score = 0 ∧
    (analyze_user_stories level history now [] requirements).1.decision = "Denied" ∧
    0 < quality_thresholds level := by
  cases level <;>
    simp only [analyze_user_stories, analyzeUserStoriesWith, decideAndLog,
      QualityMetrics.meets_threshold, quality_thresholds, check_story_completeness,
      check_requirements_alignment, check_story_best_practices, List.isEmpty_nil,
      Bool.or_true, if_true] <;>
    norm_num

/-- C9: assessment is deterministic and free of hidden state and time
dependence — the returned decision, metrics and feedback of each of the
six analyze operations are unchanged when the call is repeated with a
different prior decision history and a different timestamp and the same
artifact and context. -/
theorem c9_assessment_deterministic (level : AutonomyLevel)
    (h1 h2 : List DecisionRecord) (n1 n2 : String) (stories : List String)
    (requirements : String) (design_doc : DesignDoc) (code : String)
    (language : String) (test_cases qa_feedback : String) :
    (analyze_user_stories level h1 n1 stories requirements).1 =
      (analyze_user_stories level h2 n2 stories requirements).1 ∧
    (analyze_design_document level h1 n1 design_doc stories).1 =
      (analyze_design_document level h2 n2 design_doc stories).1 ∧
    (analyze_code level h1 n1 code design_doc language).1 =
      (analyze_code level h2 n2 code design_doc language).1 ∧
    (analyze_security level h1 n1 code language).1 =
      (analyze_security level h2 n2 code language).1 ∧
    (analyze_test_cases level h1 n1 test_cases code).1 =
      (analyze_test_cases level h2 n2 test_cases code).1 ∧
    (analyze_qa_results level h1 n1 qa_feedback test_cases).1 =
      (analyze_qa_results level h2 n2 qa_feedback test_cases).1 :=
  ⟨rfl, rfl, rfl, rfl, rfl, rfl⟩

/-- C10: with an empty story list, the consistency (design-story
alignment) sub-score of `analyze_design_document` is exactly 1.0 whatever
the design document holds. -/
theorem c10_design_alignment_empty_stories (level : AutonomyLevel)
    (history : List DecisionRecord) (now : String) (design_doc : DesignDoc) :
    (analyze_design_document level history now
      design_doc []).1.metrics.consistency_score = 1 := by
  simp [analyze_design_document, analyzeDesignDocumentWith, decideAndLog,
    check_design_story_alignment]
  norm_num
